import Mathlib

/-!
A shallow embedding of the hand-seal detection core (`detectHandSeal` and its
helpers) of the jutsu repository, together with theorems settling the frozen
claims about it.

Modelling conventions:

* JavaScript numbers that can be `NaN` (or a non-numeric value observed by a
  `typeof` check) are modelled as `Option ℚ`, with `none` standing for
  `NaN`/non-numeric.  Every comparison the code performs on such values is a
  strict `<` or `>`, which is false whenever an operand is `NaN`; the lifted
  comparisons below reproduce that.
* The code computes the Euclidean distance with `Math.sqrt` and only ever
  (a) compares a distance against a positive constant, and (b) compares the
  absolute difference of two distances against `0.2`.  We therefore carry the
  *square* of each distance (an exactly representable rational) and transcribe
  each comparison into its equivalent squared form.  For (a) this uses
  `Real.sqrt s < t ↔ s < t^2` (for `t > 0`); for (b) the polynomial predicate
  `sqrtDiffGtFifth` is used, and the lemma `abs_sqrt_sub_sqrt_gt_fifth_iff`
  below proves it equivalent to `1/5 < |Real.sqrt a - Real.sqrt b|`.
* Fields that only feed `console` logging (the `debug` part of the detection
  state and the `logDebugInfo` call) are omitted: they do not influence the
  returned result or the detection memory consumed by later frames.
* A thrown JS exception is modelled as `Except.error ()`; the `try`/`catch`
  of the public entry point becomes an explicit `match`.  Property access on
  `undefined` (a missing array element) throws, so the analyzers return
  `Except.error ()` exactly when the code would throw a `TypeError` or the
  explicit `Both hands required` error.
* The static slot `detectHandSeal.previousState` is threaded explicitly: the
  entry point takes the previous `Option DetectionState` and returns the new
  one next to the result.
-/

namespace Jutsu

/-- Decidable equality of `Except` values, needed to evaluate the analyzers
on concrete witness inputs. -/
instance exceptDecEq {e a : Type} [DecidableEq e] [DecidableEq a] :
    DecidableEq (Except e a) := fun x y =>
  match x, y with
  | .ok v, .ok w =>
    if h : v = w then .isTrue (by rw [h])
    else .isFalse (by intro hc; cases hc; exact h rfl)
  | .ok _, .error _ => .isFalse (by intro hc; cases hc)
  | .error _, .ok _ => .isFalse (by intro hc; cases hc)
  | .error v, .error w =>
    if h : v = w then .isTrue (by rw [h])
    else .isFalse (by intro hc; cases hc; exact h rfl)

/-- A JavaScript number: `none` models `NaN` or a non-numeric value. -/
abbrev JSNum := Option ℚ

/-- JS subtraction: `NaN` propagates. -/
def jsub : JSNum → JSNum → JSNum
  | some a, some b => some (a - b)
  | _, _ => none

/-- JS addition: `NaN` propagates. -/
def jadd : JSNum → JSNum → JSNum
  | some a, some b => some (a + b)
  | _, _ => none

/-- JS multiplication: `NaN` propagates. -/
def jmul : JSNum → JSNum → JSNum
  | some a, some b => some (a * b)
  | _, _ => none

/-- JS `Math.abs`: `NaN` propagates. -/
def jabs : JSNum → JSNum
  | some a => some |a|
  | none => none

/-- JS strict `<`: any comparison with `NaN` is false. -/
def jlt : JSNum → JSNum → Bool
  | some a, some b => decide (a < b)
  | _, _ => false

/-- JS strict `>`: any comparison with `NaN` is false. -/
def jgt (a b : JSNum) : Bool := jlt b a

/-- A landmark supplied by the tracking source; either coordinate may be a
non-numeric value (`none`). -/
structure NormalizedLandmark where
  x : JSNum
  y : JSNum
deriving DecidableEq, Repr

/-- The handedness label attached to a hand. -/
inductive Handedness where
  | Left
  | Right
deriving DecidableEq, Repr

/-- One hand of a frame: 21 landmarks (possibly fewer, for malformed input)
plus a Left/Right label. -/
structure HandPosition where
  landmarks : List NormalizedLandmark
  handedness : Handedness
deriving DecidableEq, Repr

/-- The square of `calculateDistance p q`.  The code computes
`Math.sqrt((p.x-q.x)^2 + (p.y-q.y)^2)`; we carry the radicand. -/
def distSq (p q : NormalizedLandmark) : JSNum :=
  jadd (jmul (jsub p.x q.x) (jsub p.x q.x)) (jmul (jsub p.y q.y) (jsub p.y q.y))

/-- `arePointsClose p q threshold`, the code's `calculateDistance(p,q) < threshold`,
transcribed into the squared form `distSq p q < threshold^2`; equivalent because
every call site passes a positive threshold and `Real.sqrt` is strictly
monotone on nonnegatives. -/
def arePointsClose (p q : NormalizedLandmark) (threshold : ℚ) : Bool :=
  jlt (distSq p q) (some (threshold * threshold))

/-- The code's `isFingerUp`: `tip.y < base.y - 0.1`. -/
def isFingerUp (base tip : NormalizedLandmark) : Bool :=
  jlt tip.y (jsub base.y (some (1/10)))

/-- The code's `areFingersCurled`, applied to the extracted landmarks
`hand[7], hand[8], hand[11], hand[12], hand[15], hand[16]`. -/
def areFingersCurled (l7 l8 l11 l12 l15 l16 : NormalizedLandmark) : Bool :=
  jgt l8.y l7.y && jgt l12.y l11.y && jgt l16.y l15.y

/-- The `thumbPosition` component of a hand analysis. -/
structure ThumbPosition where
  isUp : Bool
  isOutside : Bool
  isOnTop : Bool
deriving DecidableEq, Repr

/-- The `fingerPositions` component of a hand analysis. -/
structure FingerPositions where
  areIndexMiddleTogether : Bool
  areAllFingersTogether : Bool
  areFingersStraight : Bool
  isIndexUp : Bool
  isMiddleUp : Bool
  areFingersCurled : Bool
  thumbOnPinky : Bool
deriving DecidableEq, Repr

/-- The declared type of the `previousState` field of `HandAnalysis`:
orientation plus finger positions of the prior frame. -/
structure PrevHandState where
  isVertical : Bool
  isHorizontal : Bool
  fingerPositions : FingerPositions
deriving DecidableEq, Repr

/-- The per-hand feature vector computed by `analyzeHandPosition`. -/
structure HandAnalysis where
  isVertical : Bool
  isHorizontal : Bool
  thumbPosition : ThumbPosition
  fingerPositions : FingerPositions
  previousState : Option PrevHandState
deriving DecidableEq, Repr

/-- The view of a `HandAnalysis` stored in a `previousState` field. -/
def HandAnalysis.toPrev (a : HandAnalysis) : PrevHandState :=
  { isVertical := a.isVertical
    isHorizontal := a.isHorizontal
    fingerPositions := a.fingerPositions }

/-- The optional chain `analysis.previousState?.fingerPositions.thumbOnPinky`:
`undefined` (hence falsy) when there is no previous state. -/
def HandAnalysis.prevThumbOnPinky (a : HandAnalysis) : Bool :=
  match a.previousState with
  | some p => p.fingerPositions.thumbOnPinky
  | none => false

/-- The validity gate of `analyzeHandPosition`: the five critical landmarks
(wrist, thumb tip, index tip, middle tip, pinky tip) are present with numeric
x and y. -/
def criticalLandmarksValid (hand : List NormalizedLandmark) : Bool :=
  [hand.get? 0, hand.get? 4, hand.get? 8, hand.get? 12, hand.get? 20].all fun o =>
    match o with
    | some l => l.x.isSome && l.y.isSome
    | none => false

/-- The code's `analyzeHandPosition`.  When the validity gate fails and a
previous analysis exists, it returns a copy of the previous analysis with
`previousState` pointing at it.  Otherwise it computes the feature vector;
if some accessed array element is missing, the property access would throw,
modelled as `Except.error ()`. -/
def analyzeHandPosition (hand : List NormalizedLandmark)
    (previousAnalysis : Option HandAnalysis) : Except Unit HandAnalysis :=
  match previousAnalysis, criticalLandmarksValid hand with
  | some prev, false => .ok { prev with previousState := some prev.toPrev }
  | _, _ =>
    match hand.get? 0, hand.get? 4, hand.get? 5, hand.get? 7, hand.get? 8, hand.get? 9,
        hand.get? 11, hand.get? 12, hand.get? 15, hand.get? 16, hand.get? 20 with
    | some wrist, some thumbTip, some indexBase, some l7, some indexTip, some l9,
        some l11, some middleTip, some l15, some l16, some pinkyTip =>
      .ok {
        isVertical := jlt (jabs (jsub indexTip.x pinkyTip.x)) (some (1/10))
        isHorizontal := jlt (jabs (jsub indexTip.y pinkyTip.y)) (some (1/10))
        thumbPosition := {
          isUp := jlt thumbTip.y (jsub wrist.y (some (1/10)))
          isOutside := jlt thumbTip.x indexTip.x
          isOnTop := jlt thumbTip.y indexTip.y }
        fingerPositions := {
          areIndexMiddleTogether := arePointsClose indexTip middleTip (1/20)
          areAllFingersTogether :=
            arePointsClose indexTip middleTip (1/20) &&
            arePointsClose middleTip l16 (1/20) &&
            arePointsClose l16 pinkyTip (1/20)
          areFingersStraight := isFingerUp indexBase indexTip && isFingerUp l9 middleTip
          isIndexUp := isFingerUp indexBase indexTip
          isMiddleUp := isFingerUp l9 middleTip
          areFingersCurled := areFingersCurled l7 indexTip l11 middleTip l15 l16
          thumbOnPinky := arePointsClose thumbTip pinkyTip (2/25) }
        previousState := previousAnalysis.map HandAnalysis.toPrev }
    | _, _, _, _, _, _, _, _, _, _, _ => .error ()

/-- The pairwise feature vector computed by `analyzeHandsRelationship`.
`distanceSq` carries the square of the stored wrist-to-wrist distance, and
`lastKnownDistanceSq` the square of the optional `lastKnownDistance` field. -/
structure HandRelationship where
  distanceSq : JSNum
  verticalAlignment : JSNum
  horizontalAlignment : JSNum
  isTriangleFormation : Bool
  areHandsTogether : Bool
  areThumbsTogether : Bool
  areIndexFingersTogether : Bool
  possibleOcclusion : Bool
  lastKnownDistanceSq : Option JSNum
deriving DecidableEq, Repr

/-- The code's `previousRelationship.lastKnownDistance || distance`: the
current distance is substituted when the stored one is absent (`none`),
`NaN` (`some none`) or exactly `0` - all falsy in JS. -/
def effectiveLastDistanceSq (lastKnown : Option JSNum) (current : JSNum) : JSNum :=
  match lastKnown with
  | none => current
  | some none => current
  | some (some q) => if q = 0 then current else some q

/-- `1/5 < |Real.sqrt a - Real.sqrt b|`, written as a polynomial predicate on
the squared distances so that it stays decidable over ℚ; false when either
side is `NaN`, as in JS.  `abs_sqrt_sub_sqrt_gt_fifth_iff` below proves the
equivalence for nonnegative arguments. -/
def sqrtDiffGtFifth : JSNum → JSNum → Bool
  | some a, some b =>
      decide (((1:ℚ)/5)^2 < a + b ∧ 4*(a*b) < (a + b - ((1:ℚ)/5)^2)^2)
  | _, _ => false

/-- The code's `analyzeHandsRelationship`.  It throws (`Except.error ()`) when
either hand is missing, or when a wrist/thumb-tip/index-tip landmark is a
missing array element (property access on `undefined`). -/
def analyzeHandsRelationship (hands : List HandPosition)
    (previousRelationship : Option HandRelationship) : Except Unit HandRelationship :=
  match hands.find? (fun h => h.handedness == Handedness.Left),
      hands.find? (fun h => h.handedness == Handedness.Right) with
  | some lh, some rh =>
    match lh.landmarks.get? 0, rh.landmarks.get? 0, lh.landmarks.get? 4,
        rh.landmarks.get? 4, lh.landmarks.get? 8, rh.landmarks.get? 8 with
    | some leftWrist, some rightWrist, some l4, some r4, some l8, some r8 =>
      let dSq := distSq leftWrist rightWrist
      let possibleOcclusion :=
        match previousRelationship with
        | some prev => sqrtDiffGtFifth dSq (effectiveLastDistanceSq prev.lastKnownDistanceSq dSq)
        | none => false
      .ok {
        distanceSq := dSq
        verticalAlignment := jabs (jsub leftWrist.y rightWrist.y)
        horizontalAlignment := jabs (jsub leftWrist.x rightWrist.x)
        isTriangleFormation :=
          arePointsClose l4 r4 (1/20) && jgt (jabs (jsub l8.y r8.y)) (some (1/10))
        areHandsTogether := jlt dSq (some (9/100))
        areThumbsTogether := arePointsClose l4 r4 (1/20)
        areIndexFingersTogether := arePointsClose l8 r8 (1/20)
        possibleOcclusion := possibleOcclusion
        lastKnownDistanceSq := some dSq }
    | _, _, _, _, _, _ => .error ()
  | _, _ => .error ()

/-- The `{matches, confidence}` pair returned by every per-seal scorer. -/
structure DetectionConfidence where
  isMatch : Bool
  confidence : ℚ
deriving DecidableEq, Repr

/-- The `{seal, confidence}` classification result. -/
structure SealDetectionResult where
  sealName : Option String
  confidence : ℚ
deriving DecidableEq, Repr

/-- The code's `checkBirdSeal`. -/
def checkBirdSeal (left right : HandAnalysis) (relationship : HandRelationship) :
    DetectionConfidence :=
  let confidence : ℚ :=
    (if relationship.isTriangleFormation then 2/5 else 0)
    + (if relationship.areThumbsTogether then 3/10 else 0)
    + (if left.thumbPosition.isOnTop && right.thumbPosition.isOnTop then 1/5 else 0)
    + (if relationship.areIndexFingersTogether then 1/10 else 0)
  { isMatch := decide ((4/5 : ℚ) < confidence), confidence := confidence }

/-- The code's `checkDragonSeal`. -/
def checkDragonSeal (left right : HandAnalysis) (relationship : HandRelationship) :
    DetectionConfidence :=
  let confidence : ℚ :=
    (if relationship.areHandsTogether then 3/10 else 0)
    + (if left.thumbPosition.isOnTop then 3/10 else 0)
    + (if relationship.areIndexFingersTogether then 1/5 else 0)
    + (if left.fingerPositions.areAllFingersTogether &&
          right.fingerPositions.areAllFingersTogether then 1/5 else 0)
  { isMatch := decide ((7/10 : ℚ) < confidence), confidence := confidence }

/-- The code's `checkTigerSeal`. -/
def checkTigerSeal (left right : HandAnalysis) (relationship : HandRelationship) :
    DetectionConfidence :=
  let confidence : ℚ :=
    (if left.thumbPosition.isUp && right.thumbPosition.isUp then 3/10 else 0)
    + (if left.fingerPositions.isIndexUp && right.fingerPositions.isIndexUp then 1/5 else 0)
    + (if relationship.areIndexFingersTogether then 1/5 else 0)
    + (if relationship.areHandsTogether then 1/5 else 0)
    + (if jlt relationship.verticalAlignment (some (1/10)) then 1/10 else 0)
  { isMatch := decide ((9/10 : ℚ) < confidence), confidence := confidence }

/-- The code's `detectTriangleFormationSeals` (Bird, then the plain Horse rule). -/
def detectTriangleFormationSeals (left right : HandAnalysis)
    (relationship : HandRelationship) : SealDetectionResult :=
  let birdConfidence := checkBirdSeal left right relationship
  if birdConfidence.isMatch then
    { sealName := some "Bird", confidence := birdConfidence.confidence }
  else if relationship.areIndexFingersTogether &&
      left.fingerPositions.areFingersStraight &&
      right.fingerPositions.areFingersStraight then
    { sealName := some "Horse", confidence := 17/20 }
  else
    { sealName := none, confidence := 0 }

/-- The code's `checkBoarSeal`. -/
def checkBoarSeal (left right : HandAnalysis) (relationship : HandRelationship) :
    DetectionConfidence :=
  let confidence : ℚ :=
    (if left.isVertical && right.isVertical then 3/10 else 0)
    + (if relationship.areHandsTogether then 1/5 else 0)
    + (if left.fingerPositions.areAllFingersTogether &&
          right.fingerPositions.areAllFingersTogether then 3/10 else 0)
    + (if relationship.areThumbsTogether then 1/5 else 0)
  { isMatch := decide ((4/5 : ℚ) < confidence), confidence := confidence }

/-- The code's `checkHareSeal`. -/
def checkHareSeal (left right : HandAnalysis) (relationship : HandRelationship) :
    DetectionConfidence :=
  let confidence : ℚ :=
    (if left.isHorizontal then 3/10 else 0)
    + (if right.fingerPositions.areFingersStraight then 3/10 else 0)
    + (if relationship.areHandsTogether then 1/5 else 0)
    + (if left.thumbPosition.isOnTop then 1/5 else 0)
  { isMatch := decide ((4/5 : ℚ) < confidence), confidence := confidence }

/-- The code's `checkMonkeySeal`, including its occlusion-recovery clause. -/
def checkMonkeySeal (left right : HandAnalysis) (relationship : HandRelationship) :
    DetectionConfidence :=
  let base : ℚ :=
    (if left.fingerPositions.thumbOnPinky && right.fingerPositions.thumbOnPinky then 2/5 else 0)
    + (if relationship.areHandsTogether then 3/10 else 0)
    + (if left.fingerPositions.areAllFingersTogether &&
          right.fingerPositions.areAllFingersTogether then 3/10 else 0)
  let confidence : ℚ :=
    if relationship.possibleOcclusion && left.prevThumbOnPinky && right.prevThumbOnPinky then
      max base (7/10)
    else base
  { isMatch := decide ((7/10 : ℚ) < confidence), confidence := confidence }

/-- The variant of `checkMonkeySeal` with the occlusion-recovery clause
removed, used by the refinement claim about that clause.  Modelled from the
spec's description of the scorer pattern without the rescue. -/
def checkMonkeySealNoRescue (left right : HandAnalysis) (relationship : HandRelationship) :
    DetectionConfidence :=
  let base : ℚ :=
    (if left.fingerPositions.thumbOnPinky && right.fingerPositions.thumbOnPinky then 2/5 else 0)
    + (if relationship.areHandsTogether then 3/10 else 0)
    + (if left.fingerPositions.areAllFingersTogether &&
          right.fingerPositions.areAllFingersTogether then 3/10 else 0)
  { isMatch := decide ((7/10 : ℚ) < base), confidence := base }

/-- The code's `checkRatSeal` (penalty terms, floor clamped at 0). -/
def checkRatSeal (left right : HandAnalysis) (relationship : HandRelationship) :
    DetectionConfidence :=
  let confidence : ℚ :=
    (if left.isVertical then 3/20 else 0)
    + (if left.fingerPositions.areFingersCurled then 3/20 else 0)
    + (if left.fingerPositions.areAllFingersTogether ||
          left.fingerPositions.thumbOnPinky then 3/20 else 0)
    + (if right.isVertical && !right.isHorizontal then 3/20 else 0)
    + (if right.fingerPositions.areFingersCurled then 3/20 else 0)
    + (if right.fingerPositions.areAllFingersTogether then 3/20 else 0)
    + (if right.thumbPosition.isOutside && right.thumbPosition.isUp then 3/20 else 0)
    + (if relationship.areHandsTogether then 1/10 else 0)
    + (if jlt relationship.distanceSq (some (9/100)) then 1/10 else 0)
    + (if jlt relationship.verticalAlignment (some (3/10)) then 1/10 else 0)
    + (if jlt relationship.horizontalAlignment (some (3/20)) then 1/10 else 0)
    - (if left.fingerPositions.areFingersStraight ||
          right.fingerPositions.areFingersStraight then 3/10 else 0)
    - (if !left.isVertical || !right.isVertical then 3/10 else 0)
  { isMatch := decide ((3/4 : ℚ) < confidence), confidence := max 0 confidence }

/-- The code's `checkSerpentSeal`. -/
def checkSerpentSeal (left right : HandAnalysis) (relationship : HandRelationship) :
    DetectionConfidence :=
  let confidence : ℚ :=
    (if left.fingerPositions.areAllFingersTogether &&
        right.fingerPositions.areAllFingersTogether then 3/10 else 0)
    + (if relationship.areHandsTogether then 1/5 else 0)
    + (if jlt relationship.verticalAlignment (some (1/10)) then 1/5 else 0)
    + (if left.isVertical && right.isVertical then 1/5 else 0)
    + (if !left.thumbPosition.isUp && !right.thumbPosition.isUp then 1/10 else 0)
  { isMatch := decide ((17/20 : ℚ) < confidence), confidence := confidence }

/-- The code's `checkRamSeal`. -/
def checkRamSeal (left right : HandAnalysis) (relationship : HandRelationship) :
    DetectionConfidence :=
  let confidence : ℚ :=
    (if left.isVertical && right.isVertical then 1/5 else 0)
    + (if left.thumbPosition.isOnTop then 1/5 else 0)
    + (if relationship.areHandsTogether then 1/5 else 0)
    + (if left.fingerPositions.areAllFingersTogether &&
          right.fingerPositions.areAllFingersTogether then 1/5 else 0)
    + (if relationship.areIndexFingersTogether then 1/5 else 0)
  { isMatch := decide ((4/5 : ℚ) < confidence), confidence := confidence }

/-- The code's `detectVerticalSeals`: Boar, Serpent, Ram, Dragon, Tiger, in
that order, first match wins. -/
def detectVerticalSeals (left right : HandAnalysis) (relationship : HandRelationship) :
    SealDetectionResult :=
  let boarConfidence := checkBoarSeal left right relationship
  if boarConfidence.isMatch then
    { sealName := some "Boar", confidence := boarConfidence.confidence }
  else
    let serpentConfidence := checkSerpentSeal left right relationship
    if serpentConfidence.isMatch then
      { sealName := some "Serpent", confidence := serpentConfidence.confidence }
    else
      let ramConfidence := checkRamSeal left right relationship
      if ramConfidence.isMatch then
        { sealName := some "Ram", confidence := ramConfidence.confidence }
      else
        let dragonConfidence := checkDragonSeal left right relationship
        if dragonConfidence.isMatch then
          { sealName := some "Dragon", confidence := dragonConfidence.confidence }
        else
          let tigerConfidence := checkTigerSeal left right relationship
          if tigerConfidence.isMatch then
            { sealName := some "Tiger", confidence := tigerConfidence.confidence }
          else
            { sealName := none, confidence := 0 }

/-- The code's `detectSpecialFormationSeals`: Monkey, Rat, Hare. -/
def detectSpecialFormationSeals (left right : HandAnalysis)
    (relationship : HandRelationship) : SealDetectionResult :=
  let monkeyConfidence := checkMonkeySeal left right relationship
  if monkeyConfidence.isMatch then
    { sealName := some "Monkey", confidence := monkeyConfidence.confidence }
  else
    let ratConfidence := checkRatSeal left right relationship
    if ratConfidence.isMatch then
      { sealName := some "Rat", confidence := ratConfidence.confidence }
    else
      let hareConfidence := checkHareSeal left right relationship
      if hareConfidence.isMatch then
        { sealName := some "Hare", confidence := hareConfidence.confidence }
      else
        { sealName := none, confidence := 0 }

/-- The variant of `detectSpecialFormationSeals` built on
`checkMonkeySealNoRescue`, used by the refinement claim. -/
def detectSpecialFormationSealsNoRescue (left right : HandAnalysis)
    (relationship : HandRelationship) : SealDetectionResult :=
  let monkeyConfidence := checkMonkeySealNoRescue left right relationship
  if monkeyConfidence.isMatch then
    { sealName := some "Monkey", confidence := monkeyConfidence.confidence }
  else
    let ratConfidence := checkRatSeal left right relationship
    if ratConfidence.isMatch then
      { sealName := some "Rat", confidence := ratConfidence.confidence }
    else
      let hareConfidence := checkHareSeal left right relationship
      if hareConfidence.isMatch then
        { sealName := some "Hare", confidence := hareConfidence.confidence }
      else
        { sealName := none, confidence := 0 }

/-- The code's `detectMixedOrientationSeals` (Dog, then Ox). -/
def detectMixedOrientationSeals (left right : HandAnalysis)
    (relationship : HandRelationship) : SealDetectionResult :=
  let isDogSeal :=
    left.isHorizontal && !left.isVertical &&
    left.fingerPositions.areAllFingersTogether &&
    !left.fingerPositions.areFingersCurled &&
    right.fingerPositions.areFingersCurled &&
    left.thumbPosition.isOnTop &&
    relationship.areHandsTogether
  if isDogSeal then
    { sealName := some "Dog", confidence := 9/10 }
  else if right.isHorizontal && left.isVertical then
    { sealName := some "Ox", confidence := 9/10 }
  else
    { sealName := none, confidence := 0 }

/-- The process-wide detection memory (the `debug` logging sub-state is
omitted: it only rate-limits `console` output). -/
structure DetectionState where
  leftAnalysis : Option HandAnalysis
  rightAnalysis : Option HandAnalysis
  relationship : Option HandRelationship
deriving DecidableEq, Repr

/-- The empty detection memory installed by the entry point on first use. -/
def DetectionState.empty : DetectionState :=
  { leftAnalysis := none, rightAnalysis := none, relationship := none }

/-- The body of the `try` block of `detectHandSeal`: find the two hands,
run both analyzers and the relationship analyzer (any of which may throw),
then walk the priority decision tree.  Returns the result together with the
detection memory as left behind by the call. -/
def detectBody (prev : Option DetectionState) (hands : List HandPosition) :
    Except Unit (SealDetectionResult × Option DetectionState) :=
  match hands.find? (fun h => h.handedness == Handedness.Left),
      hands.find? (fun h => h.handedness == Handedness.Right) with
  | some leftHand, some rightHand =>
    let st := prev.getD DetectionState.empty
    match analyzeHandPosition leftHand.landmarks st.leftAnalysis with
    | .error e => .error e
    | .ok leftAnalysis =>
      match analyzeHandPosition rightHand.landmarks st.rightAnalysis with
      | .error e => .error e
      | .ok rightAnalysis =>
        match analyzeHandsRelationship [leftHand, rightHand] st.relationship with
        | .error e => .error e
        | .ok relationship =>
          let newState : Option DetectionState :=
            some { leftAnalysis := some leftAnalysis
                   rightAnalysis := some rightAnalysis
                   relationship := some relationship }
          let r1 :=
            if relationship.isTriangleFormation then
              detectTriangleFormationSeals leftAnalysis rightAnalysis relationship
            else { sealName := none, confidence := 0 }
          if (4/5 : ℚ) < r1.confidence then .ok (r1, newState)
          else
            let r2 := detectSpecialFormationSeals leftAnalysis rightAnalysis relationship
            if (7/10 : ℚ) < r2.confidence then .ok (r2, newState)
            else
              let r3 :=
                if leftAnalysis.isVertical && rightAnalysis.isVertical then
                  detectVerticalSeals leftAnalysis rightAnalysis relationship
                else { sealName := none, confidence := 0 }
              if (4/5 : ℚ) < r3.confidence then .ok (r3, newState)
              else
                let r4 :=
                  if leftAnalysis.isVertical != rightAnalysis.isVertical then
                    detectMixedOrientationSeals leftAnalysis rightAnalysis relationship
                  else { sealName := none, confidence := 0 }
                if (4/5 : ℚ) < r4.confidence then .ok (r4, newState)
                else .ok (({ sealName := none, confidence := 0 } : SealDetectionResult), newState)
  | _, _ => .ok (({ sealName := none, confidence := 0 } : SealDetectionResult), prev)

/-- The public entry point `detectHandSeal`, with the static
`detectHandSeal.previousState` slot threaded explicitly.  The hand-count
guard sits outside the `try`; any error from the body is caught and turned
into `{seal: none, confidence: 0}` with the memory left untouched. -/
def detectHandSeal (prev : Option DetectionState) (hands : List HandPosition) :
    SealDetectionResult × Option DetectionState :=
  if hands.length ≠ 2 then (({ sealName := none, confidence := 0 } : SealDetectionResult), prev)
  else
    match detectBody prev hands with
    | .ok r => r
    | .error _ => (({ sealName := none, confidence := 0 } : SealDetectionResult), prev)

/-! Concrete inputs used by witnesses and counterexamples. -/

/-- A landmark with numeric coordinates. -/
def lm (x y : ℚ) : NormalizedLandmark := ⟨some x, some y⟩

/-- Builds a 21-landmark hand from the eleven landmarks the analyzer reads
(indices 0, 4, 5, 7, 8, 9, 11, 12, 15, 16, 20), filling the rest with a
fixed unused landmark. -/
def mkHand (p0 p4 p5 p7 p8 p9 p11 p12 p15 p16 p20 filler : NormalizedLandmark) :
    List NormalizedLandmark :=
  [p0, filler, filler, filler, p4, p5, filler, p7, p8, p9, filler,
   p11, p12, filler, filler, p15, p16, filler, filler, filler, p20]

/-- A left hand: vertical, fingers curled and together, thumb away from the
pinky, fingers not straight. -/
def ratLeftHand : List NormalizedLandmark :=
  mkHand (lm (1/2) (9/10)) (lm (2/5) (4/5)) (lm (1/2) (3/4)) (lm (1/2) (13/20))
    (lm (1/2) (7/10)) (lm (51/100) (3/4)) (lm (51/100) (13/20)) (lm (51/100) (7/10))
    (lm (13/25) (13/20)) (lm (13/25) (7/10)) (lm (53/100) (7/10)) (lm (1/10) (1/10))

/-- A right hand: vertical but not horizontal, fingers curled and together,
thumb outside and up. -/
def ratRightHand : List NormalizedLandmark :=
  mkHand (lm (3/5) (9/10)) (lm (11/20) (7/10)) (lm (3/5) (3/4)) (lm (3/5) (13/20))
    (lm (3/5) (7/10)) (lm (3/5) (19/25)) (lm (3/5) (7/10)) (lm (3/5) (37/50))
    (lm (3/5) (37/50)) (lm (3/5) (39/50)) (lm (3/5) (41/50)) (lm (1/10) (1/10))

/-- A well-formed two-hand frame on which `checkRatSeal` accumulates every
positive term and no penalty, reaching confidence 29/20. -/
def ratHands : List HandPosition :=
  [⟨ratLeftHand, Handedness.Left⟩, ⟨ratRightHand, Handedness.Right⟩]

/-- A left hand for the Bird/Tiger priority scenario: vertical, thumb up and
on top, index finger up, index tip well below the right index tip. -/
def c8LeftHand : List NormalizedLandmark :=
  mkHand (lm (9/20) (9/10)) (lm (1/2) (11/20)) (lm (9/20) (3/4)) (lm (9/20) (7/10))
    (lm (9/20) (3/5)) (lm (9/20) (19/25)) (lm (9/20) (7/10)) (lm (9/20) (31/50))
    (lm (9/20) (7/10)) (lm (9/20) (16/25)) (lm (11/25) (13/20)) (lm (1/5) (1/5))

/-- The matching right hand: vertical, thumb up and on top next to the left
thumb (triangle formation), index finger up. -/
def c8RightHand : List NormalizedLandmark :=
  mkHand (lm (11/20) (9/10)) (lm (1/2) (14/25)) (lm (11/20) (22/25)) (lm (11/20) (4/5))
    (lm (11/20) (3/4)) (lm (11/20) (22/25)) (lm (11/20) (4/5)) (lm (11/20) (19/25))
    (lm (11/20) (4/5)) (lm (11/20) (39/50)) (lm (14/25) (4/5)) (lm (1/5) (1/5))

/-- A frame satisfying Bird's triangle-formation sub-conditions and Tiger's
vertical-alignment sub-conditions at once. -/
def c8Hands : List HandPosition :=
  [⟨c8LeftHand, Handedness.Left⟩, ⟨c8RightHand, Handedness.Right⟩]

/-- A left hand for the Dragon scenario: vertical, thumb on top, index tip
close to the right index tip, fingers neither together nor curled. -/
def c10LeftHand : List NormalizedLandmark :=
  mkHand (lm (9/20) (9/10)) (lm (9/20) (29/50)) (lm (9/20) (17/25)) (lm (9/20) (13/20))
    (lm (49/100) (3/5)) (lm (9/20) (39/50)) (lm (9/20) (7/10)) (lm (9/20) (7/10))
    (lm (9/20) (18/25)) (lm (11/25) (73/100)) (lm (11/25) (3/4)) (lm (1/5) (1/5))

/-- The matching right hand for the Dragon scenario. -/
def c10RightHand : List NormalizedLandmark :=
  mkHand (lm (11/20) (9/10)) (lm (29/50) (29/50)) (lm (11/20) (17/25)) (lm (11/20) (13/20))
    (lm (51/100) (3/5)) (lm (11/20) (39/50)) (lm (11/20) (7/10)) (lm (11/20) (7/10))
    (lm (11/20) (18/25)) (lm (14/25) (73/100)) (lm (14/25) (3/4)) (lm (1/5) (1/5))

/-- A frame on which Dragon matches at confidence exactly 4/5 while no other
bucket fires. -/
def c10Hands : List HandPosition :=
  [⟨c10LeftHand, Handedness.Left⟩, ⟨c10RightHand, Handedness.Right⟩]

/-- A left hand whose wrist sits at (1/2, 1/2); only the wrist, thumb tip and
index tip are read by the relationship analyzer. -/
def occLeftHand : List NormalizedLandmark :=
  [lm (1/2) (1/2), lm 0 0, lm 0 0, lm 0 0, lm 0 0, lm 0 0, lm 0 0, lm 0 0, lm 0 0]

/-- A right hand whose wrist sits at (1/2, 0): wrist-to-wrist distance 1/2. -/
def occRightHand : List NormalizedLandmark :=
  [lm (1/2) 0, lm 0 0, lm 0 0, lm 0 0, lm 0 0, lm 0 0, lm 0 0, lm 0 0, lm 0 0]

/-- A two-hand frame with wrists 1/2 apart. -/
def occHands : List HandPosition :=
  [⟨occLeftHand, Handedness.Left⟩, ⟨occRightHand, Handedness.Right⟩]

/-- A previous relationship whose `lastKnownDistance` is exactly 0 (wrists
coincided on the previous frame) - a falsy value in JS. -/
def prevRelZero : HandRelationship :=
  ⟨some 0, some 0, some 0, false, false, false, false, false, some (some 0)⟩

/-- A previous relationship whose `lastKnownDistance` is 1/4 (squared: 1/16). -/
def prevRelSixteenth : HandRelationship :=
  ⟨some 0, some 0, some 0, false, false, false, false, false, some (some (1/16))⟩

/-- Placeholder analysis for `Option.getD`; never actually selected. -/
def dummyAnalysis : HandAnalysis :=
  ⟨false, false, ⟨false, false, false⟩,
   ⟨false, false, false, false, false, false, false⟩, none⟩

/-- Placeholder relationship for `Option.getD`; never actually selected. -/
def dummyRel : HandRelationship :=
  ⟨none, none, none, false, false, false, false, false, none⟩

/-- The relationship computed for `occHands` against `prevRelZero`. -/
def occRelZero : HandRelationship :=
  (analyzeHandsRelationship occHands (some prevRelZero)).toOption.getD dummyRel

/-- The relationship computed for `occHands` with no previous relationship. -/
def occRelFirst : HandRelationship :=
  (analyzeHandsRelationship occHands none).toOption.getD dummyRel

/-- The relationship computed for `occHands` against `prevRelSixteenth`. -/
def occRelSixteenth : HandRelationship :=
  (analyzeHandsRelationship occHands (some prevRelSixteenth)).toOption.getD dummyRel

/-- All finger sub-conditions true. -/
def fpTrue : FingerPositions := ⟨true, true, true, true, true, true, true⟩

/-- All finger sub-conditions false. -/
def fpFalse : FingerPositions := ⟨false, false, false, false, false, false, false⟩

/-- Thumb flags all true. -/
def tpTrue : ThumbPosition := ⟨true, true, true⟩

/-- Thumb flags all false. -/
def tpFalse : ThumbPosition := ⟨false, false, false⟩

/-- A previous-frame state in which every recorded sub-condition held. -/
def prevTrue : PrevHandState := ⟨true, true, fpTrue⟩

/-- An analysis with every feature true and no previous state. -/
def allTrueAnalysis : HandAnalysis := ⟨true, true, tpTrue, fpTrue, none⟩

/-- An analysis with every current feature false but a previous state in
which every sub-condition held. -/
def allFalsePrevTrueAnalysis : HandAnalysis := ⟨false, false, tpFalse, fpFalse, some prevTrue⟩

/-- A relationship with every flag true, zero distance and alignments, and no
occlusion. -/
def allTrueRel : HandRelationship :=
  ⟨some 0, some 0, some 0, true, true, true, true, false, none⟩

/-- A relationship flagging a possible occlusion while every geometric flag
is false and distance/alignments are far off. -/
def relOcc : HandRelationship :=
  ⟨some 1, some 1, some 1, false, false, false, false, true, none⟩

/-- An analysis whose only current feature is `areAllFingersTogether`, with a
fully-true previous state: drives Monkey's base confidence to 3/5. -/
def aMon : HandAnalysis :=
  ⟨false, false, tpFalse, ⟨false, true, false, false, false, false, false⟩, some prevTrue⟩

/-- A relationship with hands together and a possible occlusion. -/
def relMonOcc : HandRelationship :=
  ⟨some 0, some 0, some 0, false, true, false, false, true, none⟩

/-- Two hands with empty landmark lists: the analyzers throw on them. -/
def emptyHandsPair : List HandPosition :=
  [⟨[], Handedness.Left⟩, ⟨[], Handedness.Right⟩]

/-- A 21-landmark hand whose thumb-tip x is non-numeric, failing the
validity gate. -/
def invalidHand : List NormalizedLandmark :=
  mkHand (lm (1/2) (1/2)) ⟨none, some (1/2)⟩ (lm (1/2) (1/2)) (lm (1/2) (1/2))
    (lm (1/2) (1/2)) (lm (1/2) (1/2)) (lm (1/2) (1/2)) (lm (1/2) (1/2))
    (lm (1/2) (1/2)) (lm (1/2) (1/2)) (lm (1/2) (1/2)) (lm (1/2) (1/2))

/-- The analysis computed for `c8LeftHand` with no previous analysis. -/
def c8LeftAnalysis : HandAnalysis :=
  (analyzeHandPosition c8LeftHand none).toOption.getD dummyAnalysis

/-- The analysis computed for `c8RightHand` with no previous analysis. -/
def c8RightAnalysis : HandAnalysis :=
  (analyzeHandPosition c8RightHand none).toOption.getD dummyAnalysis

/-- The relationship computed for `c8Hands` with no previous relationship. -/
def c8Rel : HandRelationship :=
  (analyzeHandsRelationship c8Hands none).toOption.getD dummyRel

/-- The analysis computed for `c10LeftHand` with no previous analysis. -/
def c10LeftAnalysis : HandAnalysis :=
  (analyzeHandPosition c10LeftHand none).toOption.getD dummyAnalysis

/-- The analysis computed for `c10RightHand` with no previous analysis. -/
def c10RightAnalysis : HandAnalysis :=
  (analyzeHandPosition c10RightHand none).toOption.getD dummyAnalysis

/-- The relationship computed for `c10Hands` with no previous relationship. -/
def c10Rel : HandRelationship :=
  (analyzeHandsRelationship c10Hands none).toOption.getD dummyRel

/-! Helper lemmas shared by the claim theorems. -/

/-- For nonnegative radicands and a positive bound, comparing the gap of two
square roots against the bound is equivalent to the polynomial condition used
by `sqrtDiffGtFifth`. -/
lemma abs_sqrt_sub_gt_iff_real (a b c : ℝ) (ha : 0 ≤ a) (hb : 0 ≤ b) (hc : 0 < c) :
    c < |Real.sqrt a - Real.sqrt b| ↔ c^2 < a + b ∧ 4*(a*b) < (a + b - c^2)^2 := by
  have hsa := Real.sqrt_nonneg a
  have hsb := Real.sqrt_nonneg b
  have ha2 : Real.sqrt a ^ 2 = a := Real.sq_sqrt ha
  have hb2 : Real.sqrt b ^ 2 = b := Real.sq_sqrt hb
  have hab : 0 ≤ Real.sqrt a * Real.sqrt b := mul_nonneg hsa hsb
  have hs2 : (Real.sqrt a * Real.sqrt b)^2 = a*b := by rw [mul_pow, ha2, hb2]
  constructor
  · intro h
    have h2 : c^2 < (Real.sqrt a - Real.sqrt b)^2 := by
      have h3 := sq_lt_sq'
        (lt_of_le_of_lt (neg_nonpos.mpr (abs_nonneg (Real.sqrt a - Real.sqrt b))) hc) h
      rwa [sq_abs] at h3
    have h4 : 2*(Real.sqrt a * Real.sqrt b) < a + b - c^2 := by nlinarith
    exact ⟨by nlinarith, by nlinarith⟩
  · rintro ⟨h1, h2⟩
    have h4 : 2*(Real.sqrt a * Real.sqrt b) < a + b - c^2 := by nlinarith
    have h5 : c^2 < (Real.sqrt a - Real.sqrt b)^2 := by nlinarith
    exact lt_of_pow_lt_pow_left₀ 2 (abs_nonneg _) (by rw [sq_abs]; exact h5)

/-- `sqrtDiffGtFifth` on the squares of two distances decides whether the
distances themselves differ by more than 1/5. -/
lemma sqrtDiffGtFifth_iff (a b : ℚ) (ha : 0 ≤ a) (hb : 0 ≤ b) :
    sqrtDiffGtFifth (some a) (some b) = true ↔
      (1/5 : ℝ) < |Real.sqrt (a : ℝ) - Real.sqrt (b : ℝ)| := by
  rw [sqrtDiffGtFifth, decide_eq_true_eq,
    abs_sqrt_sub_gt_iff_real (a : ℝ) (b : ℝ) (1/5)
      (by exact_mod_cast ha) (by exact_mod_cast hb) (by norm_num)]
  constructor
  · rintro ⟨h1, h2⟩
    have hc1 : ((((1:ℚ)/5)^2 : ℚ) : ℝ) < ((a + b : ℚ) : ℝ) := by exact_mod_cast h1
    have hc2 : ((4*(a*b) : ℚ) : ℝ) < (((a + b - ((1:ℚ)/5)^2)^2 : ℚ) : ℝ) := by
      exact_mod_cast h2
    constructor
    · push_cast at hc1
      linarith
    · push_cast at hc2
      linarith
  · rintro ⟨h1, h2⟩
    constructor
    · have hc1 : ((((1:ℚ)/5)^2 : ℚ) : ℝ) < ((a + b : ℚ) : ℝ) := by
        push_cast
        linarith
      exact_mod_cast hc1
    · have hc2 : ((4*(a*b) : ℚ) : ℝ) < (((a + b - ((1:ℚ)/5)^2)^2 : ℚ) : ℝ) := by
        push_cast
        linarith
      exact_mod_cast hc2

/-- A squared distance, when numeric, is nonnegative. -/
lemma distSq_nonneg (p q : NormalizedLandmark) (a : ℚ) (h : distSq p q = some a) :
    0 ≤ a := by
  unfold distSq jadd jmul jsub at h
  obtain ⟨px, py⟩ := p
  obtain ⟨qx, qy⟩ := q
  cases px <;> cases qx <;> cases py <;> cases qy <;> simp at h
  rename_i x1 x2 y1 y2
  nlinarith [mul_self_nonneg (x1 - x2), mul_self_nonneg (y1 - y2)]

/-- Each weighted term of a scorer is between 0 and its weight. -/
lemma bool_ite_bounds (b : Bool) (w : ℚ) (hw : 0 ≤ w) :
    0 ≤ (if b then w else 0) ∧ (if b then w else 0) ≤ w := by
  cases b <;> simp [hw]

lemma checkBirdSeal_bounds (l r : HandAnalysis) (rel : HandRelationship) :
    0 ≤ (checkBirdSeal l r rel).confidence ∧ (checkBirdSeal l r rel).confidence ≤ 1 := by
  have h1 := bool_ite_bounds rel.isTriangleFormation (2/5 : ℚ) (by norm_num)
  have h2 := bool_ite_bounds rel.areThumbsTogether (3/10 : ℚ) (by norm_num)
  have h3 := bool_ite_bounds (l.thumbPosition.isOnTop && r.thumbPosition.isOnTop)
    (1/5 : ℚ) (by norm_num)
  have h4 := bool_ite_bounds rel.areIndexFingersTogether (1/10 : ℚ) (by norm_num)
  unfold checkBirdSeal
  dsimp only
  constructor <;> linarith [h1.1, h1.2, h2.1, h2.2, h3.1, h3.2, h4.1, h4.2]

lemma checkDragonSeal_bounds (l r : HandAnalysis) (rel : HandRelationship) :
    0 ≤ (checkDragonSeal l r rel).confidence ∧ (checkDragonSeal l r rel).confidence ≤ 1 := by
  have h1 := bool_ite_bounds rel.areHandsTogether (3/10 : ℚ) (by norm_num)
  have h2 := bool_ite_bounds l.thumbPosition.isOnTop (3/10 : ℚ) (by norm_num)
  have h3 := bool_ite_bounds rel.areIndexFingersTogether (1/5 : ℚ) (by norm_num)
  have h4 := bool_ite_bounds (l.fingerPositions.areAllFingersTogether &&
    r.fingerPositions.areAllFingersTogether) (1/5 : ℚ) (by norm_num)
  unfold checkDragonSeal
  dsimp only
  constructor <;> linarith [h1.1, h1.2, h2.1, h2.2, h3.1, h3.2, h4.1, h4.2]

lemma checkTigerSeal_bounds (l r : HandAnalysis) (rel : HandRelationship) :
    0 ≤ (checkTigerSeal l r rel).confidence ∧ (checkTigerSeal l r rel).confidence ≤ 1 := by
  have h1 := bool_ite_bounds (l.thumbPosition.isUp && r.thumbPosition.isUp)
    (3/10 : ℚ) (by norm_num)
  have h2 := bool_ite_bounds (l.fingerPositions.isIndexUp && r.fingerPositions.isIndexUp)
    (1/5 : ℚ) (by norm_num)
  have h3 := bool_ite_bounds rel.areIndexFingersTogether (1/5 : ℚ) (by norm_num)
  have h4 := bool_ite_bounds rel.areHandsTogether (1/5 : ℚ) (by norm_num)
  have h5 := bool_ite_bounds (jlt rel.verticalAlignment (some (1/10))) (1/10 : ℚ) (by norm_num)
  unfold checkTigerSeal
  dsimp only
  constructor <;> linarith [h1.1, h1.2, h2.1, h2.2, h3.1, h3.2, h4.1, h4.2, h5.1, h5.2]

lemma checkBoarSeal_bounds (l r : HandAnalysis) (rel : HandRelationship) :
    0 ≤ (checkBoarSeal l r rel).confidence ∧ (checkBoarSeal l r rel).confidence ≤ 1 := by
  have h1 := bool_ite_bounds (l.isVertical && r.isVertical) (3/10 : ℚ) (by norm_num)
  have h2 := bool_ite_bounds rel.areHandsTogether (1/5 : ℚ) (by norm_num)
  have h3 := bool_ite_bounds (l.fingerPositions.areAllFingersTogether &&
    r.fingerPositions.areAllFingersTogether) (3/10 : ℚ) (by norm_num)
  have h4 := bool_ite_bounds rel.areThumbsTogether (1/5 : ℚ) (by norm_num)
  unfold checkBoarSeal
  dsimp only
  constructor <;> linarith [h1.1, h1.2, h2.1, h2.2, h3.1, h3.2, h4.1, h4.2]

lemma checkHareSeal_bounds (l r : HandAnalysis) (rel : HandRelationship) :
    0 ≤ (checkHareSeal l r rel).confidence ∧ (checkHareSeal l r rel).confidence ≤ 1 := by
  have h1 := bool_ite_bounds l.isHorizontal (3/10 : ℚ) (by norm_num)
  have h2 := bool_ite_bounds r.fingerPositions.areFingersStraight (3/10 : ℚ) (by norm_num)
  have h3 := bool_ite_bounds rel.areHandsTogether (1/5 : ℚ) (by norm_num)
  have h4 := bool_ite_bounds l.thumbPosition.isOnTop (1/5 : ℚ) (by norm_num)
  unfold checkHareSeal
  dsimp only
  constructor <;> linarith [h1.1, h1.2, h2.1, h2.2, h3.1, h3.2, h4.1, h4.2]

lemma checkMonkeySeal_bounds (l r : HandAnalysis) (rel : HandRelationship) :
    0 ≤ (checkMonkeySeal l r rel).confidence ∧ (checkMonkeySeal l r rel).confidence ≤ 1 := by
  have h1 := bool_ite_bounds (l.fingerPositions.thumbOnPinky &&
    r.fingerPositions.thumbOnPinky) (2/5 : ℚ) (by norm_num)
  have h2 := bool_ite_bounds rel.areHandsTogether (3/10 : ℚ) (by norm_num)
  have h3 := bool_ite_bounds (l.fingerPositions.areAllFingersTogether &&
    r.fingerPositions.areAllFingersTogether) (3/10 : ℚ) (by norm_num)
  unfold checkMonkeySeal
  dsimp only
  split_ifs <;> constructor <;> norm_num [le_max_iff, max_le_iff]

lemma checkRatSeal_bounds (l r : HandAnalysis) (rel : HandRelationship) :
    0 ≤ (checkRatSeal l r rel).confidence ∧ (checkRatSeal l r rel).confidence ≤ 29/20 := by
  have h1 := bool_ite_bounds l.isVertical (3/20 : ℚ) (by norm_num)
  have h2 := bool_ite_bounds l.fingerPositions.areFingersCurled (3/20 : ℚ) (by norm_num)
  have h3 := bool_ite_bounds (l.fingerPositions.areAllFingersTogether ||
    l.fingerPositions.thumbOnPinky) (3/20 : ℚ) (by norm_num)
  have h4 := bool_ite_bounds (r.isVertical && !r.isHorizontal) (3/20 : ℚ) (by norm_num)
  have h5 := bool_ite_bounds r.fingerPositions.areFingersCurled (3/20 : ℚ) (by norm_num)
  have h6 := bool_ite_bounds r.fingerPositions.areAllFingersTogether (3/20 : ℚ) (by norm_num)
  have h7 := bool_ite_bounds (r.thumbPosition.isOutside && r.thumbPosition.isUp)
    (3/20 : ℚ) (by norm_num)
  have h8 := bool_ite_bounds rel.areHandsTogether (1/10 : ℚ) (by norm_num)
  have h9 := bool_ite_bounds (jlt rel.distanceSq (some (9/100))) (1/10 : ℚ) (by norm_num)
  have h10 := bool_ite_bounds (jlt rel.verticalAlignment (some (3/10))) (1/10 : ℚ) (by norm_num)
  have h11 := bool_ite_bounds (jlt rel.horizontalAlignment (some (3/20))) (1/10 : ℚ) (by norm_num)
  have h12 := bool_ite_bounds (l.fingerPositions.areFingersStraight ||
    r.fingerPositions.areFingersStraight) (3/10 : ℚ) (by norm_num)
  have h13 := bool_ite_bounds (!l.isVertical || !r.isVertical) (3/10 : ℚ) (by norm_num)
  unfold checkRatSeal
  dsimp only
  constructor
  · exact le_max_left _ _
  · refine max_le (by norm_num) ?_
    linarith [h1.1, h1.2, h2.1, h2.2, h3.1, h3.2, h4.1, h4.2, h5.1, h5.2, h6.1, h6.2,
      h7.1, h7.2, h8.1, h8.2, h9.1, h9.2, h10.1, h10.2, h11.1, h11.2, h12.1, h12.2,
      h13.1, h13.2]

lemma checkSerpentSeal_bounds (l r : HandAnalysis) (rel : HandRelationship) :
    0 ≤ (checkSerpentSeal l r rel).confidence ∧ (checkSerpentSeal l r rel).confidence ≤ 1 := by
  have h1 := bool_ite_bounds (l.fingerPositions.areAllFingersTogether &&
    r.fingerPositions.areAllFingersTogether) (3/10 : ℚ) (by norm_num)
  have h2 := bool_ite_bounds rel.areHandsTogether (1/5 : ℚ) (by norm_num)
  have h3 := bool_ite_bounds (jlt rel.verticalAlignment (some (1/10))) (1/5 : ℚ) (by norm_num)
  have h4 := bool_ite_bounds (l.isVertical && r.isVertical) (1/5 : ℚ) (by norm_num)
  have h5 := bool_ite_bounds (!l.thumbPosition.isUp && !r.thumbPosition.isUp)
    (1/10 : ℚ) (by norm_num)
  unfold checkSerpentSeal
  dsimp only
  constructor <;> linarith [h1.1, h1.2, h2.1, h2.2, h3.1, h3.2, h4.1, h4.2, h5.1, h5.2]

lemma checkRamSeal_bounds (l r : HandAnalysis) (rel : HandRelationship) :
    0 ≤ (checkRamSeal l r rel).confidence ∧ (checkRamSeal l r rel).confidence ≤ 1 := by
  have h1 := bool_ite_bounds (l.isVertical && r.isVertical) (1/5 : ℚ) (by norm_num)
  have h2 := bool_ite_bounds l.thumbPosition.isOnTop (1/5 : ℚ) (by norm_num)
  have h3 := bool_ite_bounds rel.areHandsTogether (1/5 : ℚ) (by norm_num)
  have h4 := bool_ite_bounds (l.fingerPositions.areAllFingersTogether &&
    r.fingerPositions.areAllFingersTogether) (1/5 : ℚ) (by norm_num)
  have h5 := bool_ite_bounds rel.areIndexFingersTogether (1/5 : ℚ) (by norm_num)
  unfold checkRamSeal
  dsimp only
  constructor <;> linarith [h1.1, h1.2, h2.1, h2.2, h3.1, h3.2, h4.1, h4.2, h5.1, h5.2]

lemma detectTriangleFormationSeals_bounds (l r : HandAnalysis) (rel : HandRelationship) :
    0 ≤ (detectTriangleFormationSeals l r rel).confidence ∧
      (detectTriangleFormationSeals l r rel).confidence ≤ 1 := by
  unfold detectTriangleFormationSeals
  dsimp only
  split_ifs
  · exact checkBirdSeal_bounds l r rel
  · constructor <;> norm_num
  · constructor <;> norm_num

lemma detectSpecialFormationSeals_bounds (l r : HandAnalysis) (rel : HandRelationship) :
    0 ≤ (detectSpecialFormationSeals l r rel).confidence ∧
      (detectSpecialFormationSeals l r rel).confidence ≤ 29/20 := by
  have hm := checkMonkeySeal_bounds l r rel
  have hr := checkRatSeal_bounds l r rel
  have hh := checkHareSeal_bounds l r rel
  unfold detectSpecialFormationSeals
  dsimp only
  split_ifs
  · exact ⟨hm.1, le_trans hm.2 (by norm_num)⟩
  · exact hr
  · exact ⟨hh.1, le_trans hh.2 (by norm_num)⟩
  · constructor <;> norm_num

lemma detectVerticalSeals_bounds (l r : HandAnalysis) (rel : HandRelationship) :
    0 ≤ (detectVerticalSeals l r rel).confidence ∧
      (detectVerticalSeals l r rel).confidence ≤ 1 := by
  have h1 := checkBoarSeal_bounds l r rel
  have h2 := checkSerpentSeal_bounds l r rel
  have h3 := checkRamSeal_bounds l r rel
  have h4 := checkDragonSeal_bounds l r rel
  have h5 := checkTigerSeal_bounds l r rel
  unfold detectVerticalSeals
  dsimp only
  split_ifs
  · exact h1
  · exact h2
  · exact h3
  · exact h4
  · exact h5
  · constructor <;> norm_num

lemma detectMixedOrientationSeals_bounds (l r : HandAnalysis) (rel : HandRelationship) :
    0 ≤ (detectMixedOrientationSeals l r rel).confidence ∧
      (detectMixedOrientationSeals l r rel).confidence ≤ 1 := by
  unfold detectMixedOrientationSeals
  dsimp only
  split_ifs <;> constructor <;> norm_num

lemma detectBody_confidence_bounds (prev : Option DetectionState)
    (hands : List HandPosition) (res : SealDetectionResult × Option DetectionState)
    (h : detectBody prev hands = .ok res) :
    0 ≤ res.1.confidence ∧ res.1.confidence ≤ 29/20 := by
  unfold detectBody at h
  split at h
  case h_2 => cases h; constructor <;> norm_num
  case h_1 leftHand rightHand heq1 heq2 =>
    dsimp only at h
    cases hla : analyzeHandPosition leftHand.landmarks
        (prev.getD DetectionState.empty).leftAnalysis with
    | error e => simp [hla] at h
    | ok la =>
      cases hra : analyzeHandPosition rightHand.landmarks
          (prev.getD DetectionState.empty).rightAnalysis with
      | error e => simp [hla, hra] at h
      | ok ra =>
        cases hrel : analyzeHandsRelationship [leftHand, rightHand]
            (prev.getD DetectionState.empty).relationship with
        | error e => simp [hla, hra, hrel] at h
        | ok rel =>
          simp only [hla, hra, hrel] at h
          have ht := detectTriangleFormationSeals_bounds la ra rel
          have hs := detectSpecialFormationSeals_bounds la ra rel
          have hv := detectVerticalSeals_bounds la ra rel
          have hmx := detectMixedOrientationSeals_bounds la ra rel
          split_ifs at h <;> cases h <;> dsimp only <;>
            first
            | exact ⟨ht.1, le_trans ht.2 (by norm_num)⟩
            | exact hs
            | exact ⟨hv.1, le_trans hv.2 (by norm_num)⟩
            | exact ⟨hmx.1, le_trans hmx.2 (by norm_num)⟩
            | (constructor <;> norm_num)

lemma beq_left_left : (Handedness.Left == Handedness.Left) = true := by decide

lemma beq_left_right : (Handedness.Left == Handedness.Right) = false := by decide

lemma beq_right_left : (Handedness.Right == Handedness.Left) = false := by decide

lemma beq_right_right : (Handedness.Right == Handedness.Right) = true := by decide

lemma find_left_handedness {hands : List HandPosition} {lh : HandPosition}
    (h : hands.find? (fun x => x.handedness == Handedness.Left) = some lh) :
    lh.handedness = Handedness.Left := by
  have h2 := List.find?_some h
  cases hh : lh.handedness
  · rfl
  · rw [hh] at h2
    exact absurd h2 (by decide)

lemma find_right_handedness {hands : List HandPosition} {rh : HandPosition}
    (h : hands.find? (fun x => x.handedness == Handedness.Right) = some rh) :
    rh.handedness = Handedness.Right := by
  have h2 := List.find?_some h
  cases hh : rh.handedness
  · rw [hh] at h2
    exact absurd h2 (by decide)
  · rfl

/-- With an empty left landmark list, the relationship analyzer throws: the
wrist access `left[0]` yields `undefined` and the property access fails. -/
lemma analyzeHandsRelationship_left_empty (lh rh : HandPosition)
    (prevRel : Option HandRelationship) (hl : lh.handedness = Handedness.Left)
    (he : lh.landmarks = []) :
    analyzeHandsRelationship [lh, rh] prevRel = .error () := by
  unfold analyzeHandsRelationship
  cases hrh : rh.handedness <;>
    simp [List.find?, hl, hrh, he, beq_left_left, beq_left_right, beq_right_left,
      beq_right_right]

/-- Likewise for an empty right landmark list. -/
lemma analyzeHandsRelationship_right_empty (lh rh : HandPosition)
    (prevRel : Option HandRelationship) (hl : lh.handedness = Handedness.Left)
    (hr : rh.handedness = Handedness.Right) (he : rh.landmarks = []) :
    analyzeHandsRelationship [lh, rh] prevRel = .error () := by
  unfold analyzeHandsRelationship
  cases h0 : lh.landmarks[0]? <;>
    simp [List.find?, hl, hr, he, h0, beq_left_left, beq_left_right, beq_right_left,
      beq_right_right]

/-! The claim theorems.  The universally quantified theorems come first; the
closed counterexamples and witnesses, which evaluate the embedding on
concrete inputs, sit in the final section. -/

/-- C1 (amended): for every previous state and input, the confidence returned
by `detectHandSeal` lies in [0, 29/20]; every per-seal scorer's confidence is
non-negative and at most 1, except `checkRatSeal`, whose positive weights sum
to 29/20 and whose confidence is bounded only by [0, 29/20]. -/
theorem detectHandSeal_confidence_bounds :
    (∀ prev hands, 0 ≤ (detectHandSeal prev hands).1.confidence ∧
      (detectHandSeal prev hands).1.confidence ≤ 29/20) ∧
    (∀ l r rel,
      (0 ≤ (checkBirdSeal l r rel).confidence ∧ (checkBirdSeal l r rel).confidence ≤ 1) ∧
      (0 ≤ (checkDragonSeal l r rel).confidence ∧ (checkDragonSeal l r rel).confidence ≤ 1) ∧
      (0 ≤ (checkTigerSeal l r rel).confidence ∧ (checkTigerSeal l r rel).confidence ≤ 1) ∧
      (0 ≤ (checkBoarSeal l r rel).confidence ∧ (checkBoarSeal l r rel).confidence ≤ 1) ∧
      (0 ≤ (checkHareSeal l r rel).confidence ∧ (checkHareSeal l r rel).confidence ≤ 1) ∧
      (0 ≤ (checkMonkeySeal l r rel).confidence ∧ (checkMonkeySeal l r rel).confidence ≤ 1) ∧
      (0 ≤ (checkSerpentSeal l r rel).confidence ∧ (checkSerpentSeal l r rel).confidence ≤ 1) ∧
      (0 ≤ (checkRamSeal l r rel).confidence ∧ (checkRamSeal l r rel).confidence ≤ 1) ∧
      (0 ≤ (checkRatSeal l r rel).confidence ∧ (checkRatSeal l r rel).confidence ≤ 29/20)) := by
  constructor
  · intro prev hands
    unfold detectHandSeal
    split_ifs
    · constructor <;> norm_num
    · cases hb : detectBody prev hands with
      | ok r =>
        dsimp only
        exact detectBody_confidence_bounds prev hands r hb
      | error e =>
        dsimp only
        constructor <;> norm_num
  · intro l r rel
    exact ⟨checkBirdSeal_bounds l r rel, checkDragonSeal_bounds l r rel,
      checkTigerSeal_bounds l r rel, checkBoarSeal_bounds l r rel,
      checkHareSeal_bounds l r rel, checkMonkeySeal_bounds l r rel,
      checkSerpentSeal_bounds l r rel, checkRamSeal_bounds l r rel,
      checkRatSeal_bounds l r rel⟩

/-- C2: whenever the body of the `try` block fails with an exception, the
public entry point catches it and returns `{seal: none, confidence: 0}` with
the detection memory untouched; the embedding of `detectHandSeal` is a total
function, so no exception ever escapes it. -/
theorem detectHandSeal_error_resolves_to_null (prev : Option DetectionState)
    (hands : List HandPosition) (e : Unit)
    (h : detectBody prev hands = .error e) :
    detectHandSeal prev hands = ({ sealName := none, confidence := 0 }, prev) := by
  unfold detectHandSeal
  split_ifs
  · rfl
  · rw [h]

/-- C3: every input failing the entry preconditions - hand count different
from 2, no Left entry, no Right entry, or a Left/Right entry with an empty
landmark sequence - makes `detectHandSeal` return `{seal: none, confidence: 0}`. -/
theorem detectHandSeal_precondition_failure_null (prev : Option DetectionState)
    (hands : List HandPosition)
    (h : hands.length ≠ 2 ∨
      hands.find? (fun x => x.handedness == Handedness.Left) = none ∨
      hands.find? (fun x => x.handedness == Handedness.Right) = none ∨
      (∃ lh, hands.find? (fun x => x.handedness == Handedness.Left) = some lh ∧
        lh.landmarks = []) ∨
      (∃ rh, hands.find? (fun x => x.handedness == Handedness.Right) = some rh ∧
        rh.landmarks = [])) :
    (detectHandSeal prev hands).1 = { sealName := none, confidence := 0 } := by
  unfold detectHandSeal
  split_ifs with hlen
  · rfl
  · rcases h with h | h | h | ⟨lh, hfl, he⟩ | ⟨rh, hfr, he⟩
    · exact absurd h hlen
    · cases hfr : hands.find? (fun x => x.handedness == Handedness.Right) <;>
        simp [detectBody, h, hfr]
    · cases hfl : hands.find? (fun x => x.handedness == Handedness.Left) <;>
        simp [detectBody, h, hfl]
    · have hlh := find_left_handedness hfl
      cases hfr : hands.find? (fun x => x.handedness == Handedness.Right) with
      | none => simp [detectBody, hfl, hfr]
      | some rh =>
        cases hA : analyzeHandPosition lh.landmarks
            (prev.getD DetectionState.empty).leftAnalysis with
        | error e => simp [detectBody, hfl, hfr, hA]
        | ok la =>
          cases hB : analyzeHandPosition rh.landmarks
              (prev.getD DetectionState.empty).rightAnalysis with
          | error e => simp [detectBody, hfl, hfr, hA, hB]
          | ok ra =>
            have hrel := analyzeHandsRelationship_left_empty lh rh
              (prev.getD DetectionState.empty).relationship hlh he
            simp [detectBody, hfl, hfr, hA, hB, hrel]
    · have hrh := find_right_handedness hfr
      cases hfl : hands.find? (fun x => x.handedness == Handedness.Left) with
      | none => simp [detectBody, hfl]
      | some lh =>
        have hlh := find_left_handedness hfl
        cases hA : analyzeHandPosition lh.landmarks
            (prev.getD DetectionState.empty).leftAnalysis with
        | error e => simp [detectBody, hfl, hfr, hA]
        | ok la =>
          cases hB : analyzeHandPosition rh.landmarks
              (prev.getD DetectionState.empty).rightAnalysis with
          | error e => simp [detectBody, hfl, hfr, hA, hB]
          | ok ra =>
            have hrel := analyzeHandsRelationship_right_empty lh rh
              (prev.getD DetectionState.empty).relationship hlh hrh he
            simp [detectBody, hfl, hfr, hA, hB, hrel]

/-- C4 (amended): only `checkMonkeySeal` contains the occlusion-recovery
clause: when `possibleOcclusion` is set and both hands' `previousState` show
`thumbOnPinky` held on the prior frame, its confidence is at least 0.7
regardless of the current frame's measurements. -/
theorem checkMonkeySeal_occlusion_rescue (l r : HandAnalysis) (rel : HandRelationship)
    (hocc : rel.possibleOcclusion = true)
    (hl : l.prevThumbOnPinky = true) (hr : r.prevThumbOnPinky = true) :
    (7/10 : ℚ) ≤ (checkMonkeySeal l r rel).confidence := by
  simp [checkMonkeySeal, hocc, hl, hr, le_max_iff]

/-- C5: every scorer that reports `matches: true` does so with a confidence
strictly above its own threshold (Bird 0.8, Dragon 0.7, Tiger 0.9, Boar 0.8,
Hare 0.8, Monkey 0.7, Rat 0.75, Serpent 0.85, Ram 0.8). -/
theorem scorer_match_implies_confidence_above_threshold
    (l r : HandAnalysis) (rel : HandRelationship) :
    ((checkBirdSeal l r rel).isMatch = true →
      (4/5 : ℚ) < (checkBirdSeal l r rel).confidence) ∧
    ((checkDragonSeal l r rel).isMatch = true →
      (7/10 : ℚ) < (checkDragonSeal l r rel).confidence) ∧
    ((checkTigerSeal l r rel).isMatch = true →
      (9/10 : ℚ) < (checkTigerSeal l r rel).confidence) ∧
    ((checkBoarSeal l r rel).isMatch = true →
      (4/5 : ℚ) < (checkBoarSeal l r rel).confidence) ∧
    ((checkHareSeal l r rel).isMatch = true →
      (4/5 : ℚ) < (checkHareSeal l r rel).confidence) ∧
    ((checkMonkeySeal l r rel).isMatch = true →
      (7/10 : ℚ) < (checkMonkeySeal l r rel).confidence) ∧
    ((checkRatSeal l r rel).isMatch = true →
      (3/4 : ℚ) < (checkRatSeal l r rel).confidence) ∧
    ((checkSerpentSeal l r rel).isMatch = true →
      (17/20 : ℚ) < (checkSerpentSeal l r rel).confidence) ∧
    ((checkRamSeal l r rel).isMatch = true →
      (4/5 : ℚ) < (checkRamSeal l r rel).confidence) := by
  refine ⟨?_, ?_, ?_, ?_, ?_, ?_, ?_, ?_, ?_⟩ <;> intro h
  · simp only [checkBirdSeal, decide_eq_true_eq] at h ⊢
    exact h
  · simp only [checkDragonSeal, decide_eq_true_eq] at h ⊢
    exact h
  · simp only [checkTigerSeal, decide_eq_true_eq] at h ⊢
    exact h
  · simp only [checkBoarSeal, decide_eq_true_eq] at h ⊢
    exact h
  · simp only [checkHareSeal, decide_eq_true_eq] at h ⊢
    exact h
  · simp only [checkMonkeySeal, decide_eq_true_eq] at h ⊢
    exact h
  · simp only [checkRatSeal, decide_eq_true_eq] at h ⊢
    exact lt_max_iff.mpr (Or.inr h)
  · simp only [checkSerpentSeal, decide_eq_true_eq] at h ⊢
    exact h
  · simp only [checkRamSeal, decide_eq_true_eq] at h ⊢
    exact h

/-- C6 (amended): with no previous relationship, `possibleOcclusion` is
false.  With a previous relationship whose `lastKnownDistance` is present,
numeric and nonzero, `possibleOcclusion` is true exactly when the current
wrist-to-wrist distance differs from `lastKnownDistance` by more than 0.2
(stated over the stored squares: `a` is the square of the current distance,
`b` of the stored one).  When `lastKnownDistance` is absent, `NaN` or exactly
0 - all falsy in JS - the code substitutes the current distance and the flag
stays false. -/
theorem possibleOcclusion_characterization :
    (∀ hands rel, analyzeHandsRelationship hands none = .ok rel →
      rel.possibleOcclusion = false) ∧
    (∀ hands prevRel rel a b,
      analyzeHandsRelationship hands (some prevRel) = .ok rel →
      rel.distanceSq = some a →
      prevRel.lastKnownDistanceSq = some (some b) →
      0 < b →
      (rel.possibleOcclusion = true ↔
        (1/5 : ℝ) < |Real.sqrt (a : ℝ) - Real.sqrt (b : ℝ)|)) := by
  constructor
  · intro hands rel h
    unfold analyzeHandsRelationship at h
    split at h
    · split at h
      · dsimp only at h
        cases h
        rfl
      · exact Except.noConfusion h
    · exact Except.noConfusion h
  · intro hands prevRel rel a b h hda hlk hb
    unfold analyzeHandsRelationship at h
    split at h
    · split at h
      · dsimp only at h
        cases h
        dsimp only at hda
        dsimp only
        rw [hlk]
        unfold effectiveLastDistanceSq
        dsimp only
        rw [if_neg (ne_of_gt hb)]
        rw [hda]
        exact sqrtDiffGtFifth_iff a b (distSq_nonneg _ _ a hda) (le_of_lt hb)
      · exact Except.noConfusion h
    · exact Except.noConfusion h

/-- C7: when the five critical landmarks of a 21-landmark hand are not all
well-formed numeric points and a previous analysis `A` exists,
`analyzeHandPosition` returns `A` unchanged except for `previousState`, which
is set to (the recorded view of) `A`. -/
theorem analyzeHandPosition_invalid_fallback (hand : List NormalizedLandmark)
    (A : HandAnalysis) (_hlen : hand.length = 21)
    (hinv : criticalLandmarksValid hand = false) :
    analyzeHandPosition hand (some A) = .ok { A with previousState := some A.toPrev } := by
  unfold analyzeHandPosition
  rw [hinv]

/-- C8: on an accepted two-hand frame whose derived features satisfy Bird's
triangle-formation sub-conditions (triangle formation, thumbs together, both
thumbs on top) together with Tiger's vertical-alignment sub-conditions (both
hands vertical, both thumbs up, both index fingers up, hands together,
vertical alignment below 0.1), `detectHandSeal` returns the Bird seal: the
triangle-formation bucket is evaluated first and exits as soon as its
confidence exceeds 0.8, so the Tiger check is never reached.  (The remaining
Tiger sub-condition, index tips together, is geometrically incompatible with
the triangle formation's index-tip separation and is therefore not assumed.) -/
theorem bird_beats_tiger_priority (prev : Option DetectionState) (lh rh : HandPosition)
    (la ra : HandAnalysis) (rel : HandRelationship)
    (hlh : lh.handedness = Handedness.Left) (hrh : rh.handedness = Handedness.Right)
    (hla : analyzeHandPosition lh.landmarks
      (prev.getD DetectionState.empty).leftAnalysis = .ok la)
    (hra : analyzeHandPosition rh.landmarks
      (prev.getD DetectionState.empty).rightAnalysis = .ok ra)
    (hrel : analyzeHandsRelationship [lh, rh]
      (prev.getD DetectionState.empty).relationship = .ok rel)
    (h1 : rel.isTriangleFormation = true)
    (h2 : rel.areThumbsTogether = true)
    (h3 : la.thumbPosition.isOnTop = true)
    (h4 : ra.thumbPosition.isOnTop = true)
    (_h5 : la.isVertical = true) (_h6 : ra.isVertical = true)
    (_h7 : la.thumbPosition.isUp = true) (_h8 : ra.thumbPosition.isUp = true)
    (_h9 : la.fingerPositions.isIndexUp = true)
    (_h10 : ra.fingerPositions.isIndexUp = true)
    (_h11 : rel.areHandsTogether = true)
    (_h12 : jlt rel.verticalAlignment (some (1/10)) = true) :
    (detectHandSeal prev [lh, rh]).1.sealName = some "Bird" := by
  have hx := bool_ite_bounds rel.areIndexFingersTogether (1/10 : ℚ) (by norm_num)
  have hbird : (4/5 : ℚ) < (checkBirdSeal la ra rel).confidence := by
    unfold checkBirdSeal
    dsimp only
    simp only [h1, h2, h3, h4, Bool.and_self, if_true]
    linarith [hx.1]
  have hm : (checkBirdSeal la ra rel).isMatch = true := by
    unfold checkBirdSeal at hbird ⊢
    dsimp only at hbird ⊢
    exact decide_eq_true hbird
  have htri : detectTriangleFormationSeals la ra rel =
      { sealName := some "Bird", confidence := (checkBirdSeal la ra rel).confidence } := by
    unfold detectTriangleFormationSeals
    dsimp only
    rw [if_pos hm]
  have hfl : List.find? (fun x => x.handedness == Handedness.Left) [lh, rh] = some lh := by
    simp [List.find?, hlh, beq_left_left]
  have hfr : List.find? (fun x => x.handedness == Handedness.Right) [lh, rh] = some rh := by
    simp [List.find?, hlh, hrh, beq_left_right, beq_right_right]
  unfold detectHandSeal
  rw [if_neg (by simp)]
  unfold detectBody
  rw [hfl, hfr]
  dsimp only
  rw [hla]
  dsimp only
  rw [hra]
  dsimp only
  rw [hrel]
  dsimp only
  rw [h1]
  simp only [if_true]
  rw [htri]
  dsimp only
  rw [if_pos hbird]

/-- C9 (amended): the occlusion-rescue clause never changes the `matches`
flag (a floor at exactly 0.7 cannot make `confidence > 0.7` true), and
consequently `detectSpecialFormationSeals` is unchanged by removing it; only
the `confidence` field of a non-matching Monkey report can differ. -/
theorem monkey_rescue_preserves_match_and_result
    (l r : HandAnalysis) (rel : HandRelationship) :
    (checkMonkeySeal l r rel).isMatch = (checkMonkeySealNoRescue l r rel).isMatch ∧
    detectSpecialFormationSeals l r rel = detectSpecialFormationSealsNoRescue l r rel := by
  have hmatch : (checkMonkeySeal l r rel).isMatch =
      (checkMonkeySealNoRescue l r rel).isMatch := by
    unfold checkMonkeySeal checkMonkeySealNoRescue
    dsimp only
    cases hc : (rel.possibleOcclusion && l.prevThumbOnPinky && r.prevThumbOnPinky)
    · simp [hc]
    · simp only [hc, if_true]
      rw [decide_eq_decide, lt_max_iff]
      simp [lt_irrefl]
  have hconf : (checkMonkeySealNoRescue l r rel).isMatch = true →
      (checkMonkeySeal l r rel).confidence = (checkMonkeySealNoRescue l r rel).confidence := by
    intro ht
    unfold checkMonkeySealNoRescue at ht
    dsimp only at ht
    rw [decide_eq_true_eq] at ht
    unfold checkMonkeySeal checkMonkeySealNoRescue
    dsimp only
    cases hc : (rel.possibleOcclusion && l.prevThumbOnPinky && r.prevThumbOnPinky)
    · simp [hc]
    · simp only [hc, if_true]
      exact max_eq_left (le_of_lt ht)
  refine ⟨hmatch, ?_⟩
  unfold detectSpecialFormationSeals detectSpecialFormationSealsNoRescue
  dsimp only
  rw [hmatch]
  split_ifs with hmk
  · rw [hconf hmk]
  all_goals rfl

section ConcreteEvaluation

/- Batteries marks the `Rat` arithmetic operations `@[irreducible]`, which
blocks `decide`-style evaluation of the embedding on concrete inputs; restore
the default transparency inside this section. -/
attribute [local semireducible] Rat.add Rat.mul Rat.sub Rat.inv Rat.ofScientific

/-- C1 counterexample: on a well-formed frame with exactly one Left and one
Right hand of 21 numeric landmarks each, `detectHandSeal` returns the Rat
seal with confidence 29/20, which exceeds 1 - so neither the result
confidence nor `checkRatSeal`'s reported confidence lies in [0, 1]. -/
theorem detectHandSeal_confidence_above_one_cex :
    ratHands.length = 2 ∧
    (detectHandSeal none ratHands).1 = { sealName := some "Rat", confidence := 29/20 } ∧
    ¬((detectHandSeal none ratHands).1.confidence ≤ 1) := by decide

/-- Witness for C2: two present hands with empty landmark lists make the body
throw, and `detectHandSeal` returns the null result. -/
theorem detectHandSeal_error_resolves_to_null_witness :
    detectBody none emptyHandsPair = .error () ∧
    detectHandSeal none emptyHandsPair = ({ sealName := none, confidence := 0 }, none) :=
  ⟨by decide, detectHandSeal_error_resolves_to_null none emptyHandsPair () (by decide)⟩

/-- Witness for C3: an empty input frame has fewer than 2 hands and yields
the null result. -/
theorem detectHandSeal_precondition_failure_null_witness :
    (detectHandSeal none []).1 = { sealName := none, confidence := 0 } :=
  detectHandSeal_precondition_failure_null none [] (Or.inl (by decide))

/-- C4 counterexample: `checkRatSeal` and `checkSerpentSeal` have no
occlusion-recovery clause.  With `possibleOcclusion` set and a previous state
in which every recorded sub-condition (including each scorer's key
sub-conditions) held, both scorers return confidences far below 0.7. -/
theorem occlusion_rescue_absent_rat_serpent_cex :
    relOcc.possibleOcclusion = true ∧
    allFalsePrevTrueAnalysis.previousState = some prevTrue ∧
    prevTrue.fingerPositions = fpTrue ∧
    (checkRatSeal allFalsePrevTrueAnalysis allFalsePrevTrueAnalysis relOcc).confidence = 0 ∧
    (checkSerpentSeal allFalsePrevTrueAnalysis allFalsePrevTrueAnalysis relOcc).confidence
      = 1/10 ∧
    ¬((7/10 : ℚ) ≤
      (checkRatSeal allFalsePrevTrueAnalysis allFalsePrevTrueAnalysis relOcc).confidence) ∧
    ¬((7/10 : ℚ) ≤
      (checkSerpentSeal allFalsePrevTrueAnalysis allFalsePrevTrueAnalysis relOcc).confidence) := by
  decide

/-- Witness for the amended C4: a frame with occluded measurements but a
matching previous state is rescued to confidence at least 0.7. -/
theorem checkMonkeySeal_occlusion_rescue_witness :
    (7/10 : ℚ) ≤
      (checkMonkeySeal allFalsePrevTrueAnalysis allFalsePrevTrueAnalysis relOcc).confidence :=
  checkMonkeySeal_occlusion_rescue allFalsePrevTrueAnalysis allFalsePrevTrueAnalysis relOcc
    (by decide) (by decide) (by decide)

/-- Witness for C5: on an all-true feature pair every one of the nine scorers
matches, and the theorem yields the strict threshold inequalities. -/
theorem scorer_match_implies_confidence_above_threshold_witness :
    (4/5 : ℚ) < (checkBirdSeal allTrueAnalysis allTrueAnalysis allTrueRel).confidence ∧
    (7/10 : ℚ) < (checkDragonSeal allTrueAnalysis allTrueAnalysis allTrueRel).confidence ∧
    (9/10 : ℚ) < (checkTigerSeal allTrueAnalysis allTrueAnalysis allTrueRel).confidence ∧
    (4/5 : ℚ) < (checkBoarSeal allTrueAnalysis allTrueAnalysis allTrueRel).confidence ∧
    (4/5 : ℚ) < (checkHareSeal allTrueAnalysis allTrueAnalysis allTrueRel).confidence ∧
    (7/10 : ℚ) < (checkMonkeySeal allTrueAnalysis allTrueAnalysis allTrueRel).confidence ∧
    (3/4 : ℚ) < (checkRatSeal allTrueAnalysis allTrueAnalysis allTrueRel).confidence ∧
    (17/20 : ℚ) < (checkSerpentSeal allTrueAnalysis allTrueAnalysis allTrueRel).confidence ∧
    (4/5 : ℚ) < (checkRamSeal allTrueAnalysis allTrueAnalysis allTrueRel).confidence := by
  have H := scorer_match_implies_confidence_above_threshold
    allTrueAnalysis allTrueAnalysis allTrueRel
  exact ⟨H.1 (by decide), H.2.1 (by decide), H.2.2.1 (by decide), H.2.2.2.1 (by decide),
    H.2.2.2.2.1 (by decide), H.2.2.2.2.2.1 (by decide), H.2.2.2.2.2.2.1 (by decide),
    H.2.2.2.2.2.2.2.1 (by decide), H.2.2.2.2.2.2.2.2 (by decide)⟩

/-- C6 counterexample: with a previous relationship whose `lastKnownDistance`
is exactly 0 and wrists now 1/2 apart (squared distance 1/4), the distances
differ by 1/2 > 0.2, yet `possibleOcclusion` is false: `0` is falsy in JS,
so `lastKnownDistance || distance` substitutes the current distance. -/
theorem possibleOcclusion_zero_last_distance_cex :
    prevRelZero.lastKnownDistanceSq = some (some 0) ∧
    analyzeHandsRelationship occHands (some prevRelZero) = .ok occRelZero ∧
    occRelZero.distanceSq = some (1/4) ∧
    occRelZero.possibleOcclusion = false ∧
    (1/5 : ℝ) < |Real.sqrt ((1/4 : ℚ) : ℝ) - Real.sqrt ((0 : ℚ) : ℝ)| := by
  refine ⟨by decide, by decide, by decide, by decide, ?_⟩
  have h4 : Real.sqrt ((1/4 : ℚ) : ℝ) = 1/2 := by
    rw [show (((1/4 : ℚ) : ℝ)) = (1/2 : ℝ)^2 by norm_num,
      Real.sqrt_sq (by norm_num : (0:ℝ) ≤ 1/2)]
  have h0 : Real.sqrt ((0 : ℚ) : ℝ) = 0 := by
    rw [show (((0 : ℚ) : ℝ)) = (0 : ℝ) by norm_num, Real.sqrt_zero]
  rw [h4, h0, sub_zero, abs_of_nonneg (by norm_num : (0:ℝ) ≤ 1/2)]
  norm_num

/-- Witness for the amended C6: a first frame reports no occlusion, and a
frame whose wrist distance moved from 1/4 to 1/2 (a 0.25 > 0.2 jump against
a nonzero stored distance) reports one. -/
theorem possibleOcclusion_characterization_witness :
    occRelFirst.possibleOcclusion = false ∧ occRelSixteenth.possibleOcclusion = true := by
  constructor
  · exact possibleOcclusion_characterization.1 occHands occRelFirst (by decide)
  · refine (possibleOcclusion_characterization.2 occHands prevRelSixteenth occRelSixteenth
      (1/4) (1/16) (by decide) (by decide) (by decide) (by norm_num)).mpr ?_
    have h4 : Real.sqrt ((1/4 : ℚ) : ℝ) = 1/2 := by
      rw [show (((1/4 : ℚ) : ℝ)) = (1/2 : ℝ)^2 by norm_num,
        Real.sqrt_sq (by norm_num : (0:ℝ) ≤ 1/2)]
    have h16 : Real.sqrt ((1/16 : ℚ) : ℝ) = 1/4 := by
      rw [show (((1/16 : ℚ) : ℝ)) = (1/4 : ℝ)^2 by norm_num,
        Real.sqrt_sq (by norm_num : (0:ℝ) ≤ 1/4)]
    rw [h4, h16, show (1/2 : ℝ) - 1/4 = 1/4 by norm_num,
      abs_of_nonneg (by norm_num : (0:ℝ) ≤ 1/4)]
    norm_num

/-- Witness for C7: a 21-landmark hand whose thumb-tip x is non-numeric falls
back to the previous analysis. -/
theorem analyzeHandPosition_invalid_fallback_witness :
    invalidHand.length = 21 ∧ criticalLandmarksValid invalidHand = false ∧
    analyzeHandPosition invalidHand (some allTrueAnalysis) =
      .ok { allTrueAnalysis with previousState := some allTrueAnalysis.toPrev } :=
  ⟨by decide, by decide,
    analyzeHandPosition_invalid_fallback invalidHand allTrueAnalysis (by decide) (by decide)⟩

/-- Witness for C8: a concrete frame satisfying Bird's triangle-formation
sub-conditions and Tiger's vertical-alignment sub-conditions at once is
classified as Bird. -/
theorem bird_beats_tiger_priority_witness :
    (detectHandSeal none c8Hands).1.sealName = some "Bird" :=
  bird_beats_tiger_priority none ⟨c8LeftHand, Handedness.Left⟩ ⟨c8RightHand, Handedness.Right⟩
    c8LeftAnalysis c8RightAnalysis c8Rel rfl rfl (by decide) (by decide) (by decide)
    (by decide) (by decide) (by decide) (by decide) (by decide) (by decide) (by decide)
    (by decide) (by decide) (by decide) (by decide) (by decide)

/-- C9 counterexample: the occlusion-rescue clause of `checkMonkeySeal` is
not observationally redundant at the `{matches, confidence}` level: on a
frame with base confidence 3/5 and the rescue condition satisfied, the
scorer returns confidence 7/10 while the rescue-free variant returns 3/5
(the `matches` flag is false in both). -/
theorem monkey_rescue_changes_confidence_cex :
    checkMonkeySeal aMon aMon relMonOcc ≠ checkMonkeySealNoRescue aMon aMon relMonOcc ∧
    (checkMonkeySeal aMon aMon relMonOcc).confidence = 7/10 ∧
    (checkMonkeySealNoRescue aMon aMon relMonOcc).confidence = 3/5 ∧
    (checkMonkeySeal aMon aMon relMonOcc).isMatch = false := by decide

/-- C10: a two-hand frame on which the Dragon scorer matches with confidence
exactly 0.8 (at most the bucket's 0.8 exit threshold): the vertical bucket
returns `{Dragon, 0.8}`, `detectHandSeal` discards it at the strict
`> 0.8` check and returns `{none, 0}`, and the vertical bucket's early exit
at Dragon means the later Tiger check is never consulted. -/
theorem dragon_match_below_bucket_threshold :
    analyzeHandPosition c10LeftHand none = .ok c10LeftAnalysis ∧
    analyzeHandPosition c10RightHand none = .ok c10RightAnalysis ∧
    analyzeHandsRelationship c10Hands none = .ok c10Rel ∧
    c10LeftAnalysis.isVertical = true ∧ c10RightAnalysis.isVertical = true ∧
    (checkDragonSeal c10LeftAnalysis c10RightAnalysis c10Rel).isMatch = true ∧
    (checkDragonSeal c10LeftAnalysis c10RightAnalysis c10Rel).confidence = 4/5 ∧
    detectVerticalSeals c10LeftAnalysis c10RightAnalysis c10Rel =
      { sealName := some "Dragon", confidence := 4/5 } ∧
    (detectHandSeal none c10Hands).1 = { sealName := none, confidence := 0 } := by decide

end ConcreteEvaluation

end Jutsu
